import Mathlib

/-!
Verification development for the LightBnB server-side data-access layer.

The repository's data-access modules (`database.js` and its two later
revisions) issue parameterized SQL queries against a PostgreSQL database
through a shared connection pool.  This file gives a shallow embedding of
those functions: the SQL-string/parameter-array construction is embedded
literally, the SQL templates are given a relational semantics over an
explicit database value, promise resolution and error handling are made
explicit, and the in-memory property cache of the earlier revision is
modelled as explicit state passing.
-/

namespace LightBnB

/-- JavaScript values as they occur in this module: strings (form fields,
emails, SQL text fragments), numbers (ids, limits, scaled prices) and the
`NaN` produced when a non-numeric string is used in arithmetic. -/
inductive JValue
  | str (s : String)
  | num (n : Int)
  | nan
  deriving DecidableEq, Repr

/-- JavaScript numeric coercion for the values this module multiplies:
numbers are themselves, the empty string coerces to `0`, other strings
parse as decimal integers (or fail to `NaN`, i.e. `none`). -/
def jsToNumber : JValue → Option Int
  | .num n => some n
  | .str s => if s = "" then some 0 else s.toInt?
  | .nan => none

/-- The JavaScript expression `v * 100` as applied to a filter value. -/
def jsMul100 (v : JValue) : JValue :=
  match jsToNumber v with
  | some n => .num (n * 100)
  | none => .nan

/-- One request to `pool.query`: the SQL text and the parameter array. -/
structure QueryReq where
  text : String
  params : List JValue
  deriving DecidableEq, Repr

/-- The body of one iteration of the `for (let key in options)` loop of
`getAllProperties`, for a key whose value is not `''`: the value pushed onto
`values` and the condition pushed onto `whereClause` (nothing for an
unrecognised key). -/
def filterStep (key : String) (v : JValue) (count : Nat) :
    List JValue × List String :=
  if key = "city" then
    ([v], ["properties.city = $" ++ toString count])
  else if key = "minimum_price_per_night" then
    ([jsMul100 v], ["properties.cost_per_night >= $" ++ toString count])
  else if key = "maximum_price_per_night" then
    ([jsMul100 v], ["properties.cost_per_night <= $" ++ toString count])
  else if key = "minimum_rating" then
    ([v], ["rating >= $" ++ toString count])
  else ([], [])

/-- The `for (let key in options)` loop of `getAllProperties`: starting from
placeholder index `count`, it accumulates the pushed parameter values and the
pushed WHERE-clause conditions.  A condition is pushed only for the four
recognised keys; `count` advances for every key whose value is not `''`. -/
def buildFilters : List (String × JValue) → Nat → List JValue × List String
  | [], _ => ([], [])
  | (key, v) :: rest, count =>
    if v ≠ JValue.str "" then
      let step := filterStep key v count
      let tailRes := buildFilters rest (count + 1)
      (step.1 ++ tailRes.1, step.2 ++ tailRes.2)
    else
      buildFilters rest count

/-- The fixed head of the `getAllProperties` SQL template (before the
dynamically assembled WHERE string). -/
def sqlPropHead : String :=
  "\n  SELECT DISTINCT properties.*, AVG(rating) as average_rating\n  FROM properties\n  JOIN property_reviews ON properties.id = property_reviews.property_id\n  "

/-- The fixed tail of the `getAllProperties` SQL template (after the
dynamically assembled WHERE string). -/
def sqlPropTail : String :=
  "GROUP BY properties.id      \n    LIMIT $1;     \n  "

/-- `getAllProperties(options, limit)` up to the `pool.query` call: the
assembled SQL text and the parameter array (`limit` first, then the filter
values pushed by the loop). -/
def getAllPropertiesQuery (options : List (String × JValue)) (limit : Nat) :
    QueryReq :=
  let fs := buildFilters options 2
  let whereString :=
    if fs.2.length > 0 then
      "WHERE " ++ String.intercalate " AND " fs.2 ++ " "
    else ""
  { text := sqlPropHead ++ whereString ++ sqlPropTail
    params := JValue.num limit :: fs.1 }

/-- The call with the `limit` argument possibly omitted (`limit = 10` is the
declared default parameter). -/
def getAllPropertiesCall (options : List (String × JValue))
    (limitArg : Option Nat) : QueryReq :=
  getAllPropertiesQuery options (limitArg.getD 10)

/-- The WHERE-clause condition template associated with each recognised
filter key: the text pushed before the placeholder number. -/
def filterPre (key : String) : Option String :=
  if key = "city" then some "properties.city = $"
  else if key = "minimum_price_per_night" then
    some "properties.cost_per_night >= $"
  else if key = "maximum_price_per_night" then
    some "properties.cost_per_night <= $"
  else if key = "minimum_rating" then some "rating >= $"
  else none

/-- The parameter value pushed for a recognised filter key: prices are
multiplied by 100, the city and rating values are pushed unchanged. -/
def bindVal (key : String) (v : JValue) : JValue :=
  if key = "minimum_price_per_night" then jsMul100 v
  else if key = "maximum_price_per_night" then jsMul100 v
  else v

/-- A row of the `users` table. -/
structure User where
  id : Int
  name : String
  email : String
  password : String
  deriving DecidableEq, Repr

/-- A row of the `properties` table (the columns this module touches). -/
structure Property where
  id : Int
  title : String
  cost_per_night : Int
  number_of_bedrooms : Int
  number_of_bathrooms : Int
  parking_spaces : Int
  cover_photo_url : String
  city : String
  deriving DecidableEq, Repr

/-- A row of the `reservations` table (dates as day numbers). -/
structure Reservation where
  id : Int
  guest_id : Int
  property_id : Int
  start_date : Int
  end_date : Int
  deriving DecidableEq, Repr

/-- A row of the `property_reviews` table. -/
structure Review where
  id : Int
  property_id : Int
  rating : Int
  deriving DecidableEq, Repr

/-- The relational database the queries run against. -/
structure DB where
  users : List User
  properties : List Property
  reservations : List Reservation
  property_reviews : List Review
  deriving DecidableEq, Repr

/-- SQL `AVG` over a list of integer ratings, as a rational. -/
def ratingAvg (l : List Int) : ℚ :=
  (l.sum : ℚ) / (l.length : ℚ)

/-- The average review rating of the property with id `pid`: `AVG(rating)`
over the `property_reviews` rows of that property. -/
def avgRatingFor (db : DB) (pid : Int) : ℚ :=
  ratingAvg ((db.property_reviews.filter fun r => pid == r.property_id).map
    fun r => r.rating)

/-- Semantics of `JOIN property_reviews ON properties.id =
property_reviews.property_id`: each property paired with each of its
reviews. -/
def propertiesJoin (db : DB) : List (Property × Review) :=
  db.properties.flatMap fun p =>
    (db.property_reviews.filter fun r => p.id == r.property_id).map fun r =>
      (p, r)

/-- Semantics of one generated WHERE condition of `getAllProperties`,
evaluated on a joined (property, review) row. -/
def optionPasses (key : String) (v : JValue) (p : Property) (r : Review) :
    Bool :=
  if key = "city" then
    match v with
    | .str s => p.city == s
    | _ => false
  else if key = "minimum_price_per_night" then
    match jsMul100 v with
    | .num n => n ≤ p.cost_per_night
    | _ => false
  else if key = "maximum_price_per_night" then
    match jsMul100 v with
    | .num n => p.cost_per_night ≤ n
    | _ => false
  else if key = "minimum_rating" then
    match v with
    | .num n => n ≤ r.rating
    | _ => false
  else true

/-- Semantics of the assembled WHERE string: the conjunction (`AND`) of the
conditions generated for the non-`''` option entries. -/
def rowPasses (options : List (String × JValue)) (p : Property) (r : Review) :
    Bool :=
  options.all fun kv =>
    if kv.2 = JValue.str "" then true else optionPasses kv.1 kv.2 p r

/-- Relational semantics of the `getAllProperties` query: join properties
with their reviews, keep the rows passing the generated WHERE conditions,
group by property id with `AVG(rating)`, and apply `LIMIT $1`. -/
def evalGetAllProperties (db : DB) (options : List (String × JValue))
    (limit : Nat) : List (Property × ℚ) :=
  let rows := (propertiesJoin db).filter fun pr => rowPasses options pr.1 pr.2
  let keys := (rows.map fun pr => pr.1.id).dedup
  let grouped := keys.filterMap fun i =>
    match rows.filter (fun pr => pr.1.id == i) with
    | [] => none
    | pr :: rest => some (pr.1, ratingAvg ((pr :: rest).map fun x => x.2.rating))
  grouped.take limit

/-- A result row of the `getAllReservations` query (its SELECT list). -/
structure ResRow where
  id : Int
  title : String
  cost_per_night : Int
  number_of_bedrooms : Int
  number_of_bathrooms : Int
  parking_spaces : Int
  cover_photo_url : String
  start_date : Int
  end_date : Int
  average_rating : ℚ
  deriving DecidableEq, Repr

/-- Builds one `getAllReservations` result row from a reservation, its
property and the aggregated average rating. -/
def mkResRow (rv : Reservation) (p : Property) (avg : ℚ) : ResRow :=
  { id := rv.id
    title := p.title
    cost_per_night := p.cost_per_night
    number_of_bedrooms := p.number_of_bedrooms
    number_of_bathrooms := p.number_of_bathrooms
    parking_spaces := p.parking_spaces
    cover_photo_url := p.cover_photo_url
    start_date := rv.start_date
    end_date := rv.end_date
    average_rating := avg }

/-- Semantics of `FROM reservations JOIN properties ON
reservations.property_id = properties.id JOIN property_reviews ON
properties.id = property_reviews.property_id`. -/
def reservationsJoin (db : DB) : List (Reservation × Property × Review) :=
  db.reservations.flatMap fun rv =>
    db.properties.flatMap fun p =>
      if rv.property_id = p.id then
        (db.property_reviews.filter fun r => p.id == r.property_id).map
          fun r => (rv, p, r)
      else []

/-- Insertion step for `ORDER BY reservations.start_date`. -/
def insertByDate (x : ResRow) : List ResRow → List ResRow
  | [] => [x]
  | y :: rest =>
    if x.start_date ≤ y.start_date then x :: y :: rest
    else y :: insertByDate x rest

/-- Sorting for `ORDER BY reservations.start_date`. -/
def sortByDate : List ResRow → List ResRow
  | [] => []
  | x :: rest => insertByDate x (sortByDate rest)

/-- Relational semantics of the `getAllReservations` query: the three-way
join, `WHERE reservations.guest_id = $1`, `GROUP BY properties.id,
reservations.id` with `AVG(rating)`, `ORDER BY reservations.start_date`,
`LIMIT $2`. -/
def evalGetAllReservations (db : DB) (guest : Int) (limit : Nat) :
    List ResRow :=
  let rows := (reservationsJoin db).filter fun t => t.1.guest_id == guest
  let keys := (rows.map fun t => (t.2.1.id, t.1.id)).dedup
  let grouped := keys.filterMap fun k =>
    match rows.filter (fun t => t.2.1.id == k.1 && t.1.id == k.2) with
    | [] => none
    | t :: rest =>
      some (mkResRow t.1 t.2.1
        (ratingAvg ((t :: rest).map fun x => x.2.2.rating)))
  (sortByDate grouped).take limit

/-- Outcome of a settled promise returned by a query function. -/
inductive Promise (α : Type)
  | resolved (v : α)
  | rejected (msg : String)
  deriving DecidableEq, Repr

/-- A JavaScript result value: `undefined`, `null`, or a proper value. -/
inductive JSVal (α : Type)
  | undef
  | null
  | val (a : α)
  deriving DecidableEq, Repr

/-- The SQL text of `getUserWithEmail`. -/
def userByEmailSQL : String :=
  "SELECT * FROM users\n     WHERE email = $1;  \n  "

/-- The SQL text of `getUserWithId`. -/
def userByIdSQL : String :=
  "SELECT * FROM users\n     WHERE id = $1;  \n  "

/-- The single `pool.query` request issued by `getUserWithEmail`. -/
def getUserWithEmailQuery (email : String) : QueryReq :=
  { text := userByEmailSQL, params := [JValue.str email] }

/-- The single `pool.query` request issued by `getUserWithId`. -/
def getUserWithIdQuery (id : Int) : QueryReq :=
  { text := userByIdSQL, params := [JValue.num id] }

/-- Rows produced by `SELECT * FROM users WHERE email = $1`. -/
def usersWithEmail (db : DB) (email : String) : List User :=
  db.users.filter fun u => u.email == email

/-- Rows produced by `SELECT * FROM users WHERE id = $1`. -/
def usersWithId (db : DB) (id : Int) : List User :=
  db.users.filter fun u => u.id == id

/-- `getUserWithEmail` after the `pool.query` call: on failure, log the
message and resolve with `undefined`; on success, resolve with `null` for an
empty row set, else with the first row. -/
def getUserWithEmailRun (resp : Except String (List User)) :
    List String × Promise (JSVal User) :=
  match resp with
  | .error m => ([m], .resolved .undef)
  | .ok rows =>
    ([], .resolved (match rows with
      | [] => .null
      | u :: _ => .val u))

/-- `getUserWithId` after the `pool.query` call (same shape as
`getUserWithEmail`). -/
def getUserWithIdRun (resp : Except String (List User)) :
    List String × Promise (JSVal User) :=
  match resp with
  | .error m => ([m], .resolved .undef)
  | .ok rows =>
    ([], .resolved (match rows with
      | [] => .null
      | u :: _ => .val u))

/-- The `user` argument of `addUser`. -/
structure UserInput where
  name : String
  email : String
  password : String
  deriving DecidableEq, Repr

/-- The single `INSERT ... RETURNING *` request issued by the final
revision's `addUser`. -/
def addUserQuery (u : UserInput) : QueryReq :=
  { text := "\n     INSERT INTO users (name, email, password) \n       VALUES ($1, $2, $3) RETURNING *;;\n  "
    params := [JValue.str u.name, JValue.str u.email, JValue.str u.password] }

/-- Semantics of the `addUser` insert with `RETURNING *`: the database
assigns `newId` and stores the row; the returned row set is the stored
row. -/
def insertUserReturning (db : DB) (newId : Int) (u : UserInput) :
    DB × User :=
  let row : User :=
    { id := newId, name := u.name, email := u.email, password := u.password }
  ({ db with users := db.users ++ [row] }, row)

/-- `addUser` (final revision) after the `pool.query` call: on failure, log
and resolve `undefined`; on success, resolve with `result.rows[0]`. -/
def addUserRun (resp : Except String (List User)) :
    List String × Promise (JSVal User) :=
  match resp with
  | .error m => ([m], .resolved .undef)
  | .ok rows =>
    ([], .resolved (match rows with
      | [] => .undef
      | u :: _ => .val u))

/-- `getAllReservations` after the `pool.query` call: failure logs and
resolves `undefined`; an empty row set resolves `null`; otherwise the rows
resolve. -/
def getAllReservationsRun (resp : Except String (List ResRow)) :
    List String × Promise (JSVal (List ResRow)) :=
  match resp with
  | .error m => ([m], .resolved .undef)
  | .ok rows =>
    ([], .resolved (match rows with
      | [] => .null
      | r :: rest => .val (r :: rest)))

/-- `getAllProperties` after the `pool.query` call: failure logs and
resolves `undefined`; success resolves with all rows. -/
def getAllPropertiesRun (resp : Except String (List (Property × ℚ))) :
    List String × Promise (JSVal (List (Property × ℚ))) :=
  match resp with
  | .error m => ([m], .resolved .undef)
  | .ok rows => ([], .resolved (.val rows))

/-- A property object as passed to `addProperty`: keys with their values,
in insertion order. -/
def PropObj : Type := List (String × JValue)

/-- The values of a property object, in key order (`Object.values`). -/
def propValues (property : PropObj) : List JValue :=
  property.map fun kv => kv.2

/-- One `if (values[i] === '') values[i] = '0';` statement. -/
def patchAt (vs : List JValue) (i : Nat) : List JValue :=
  if vs[i]? = some (JValue.str "") then vs.set i (JValue.str "0") else vs

/-- The parameter array of the final revision's `addProperty`: the property
values with the blank-integer patches applied at positions 2, 3, 4 and 5. -/
def addPropertyValues (property : PropObj) : List JValue :=
  patchAt (patchAt (patchAt (patchAt (propValues property) 2) 3) 4) 5

/-- The single `pool.query` request issued by the final revision's
`addProperty`: the column list is `Object.keys(property)` (coerced to a
comma-separated string) and the parameters are the patched values. -/
def addPropertyQuery (property : PropObj) : QueryReq :=
  { text := "\n  INSERT INTO properties (" ++
      String.intercalate "," (property.map fun kv => kv.1) ++
      ") \n    VALUES ($1, $2, $3, $4, $5, $6, $7, $8, $9, $10, $11, $12, $13, $14) RETURNING *;;\n"
    params := addPropertyValues property }

/-- `addProperty` (final revision) after the `pool.query` call. -/
def addPropertyRun (resp : Except String (List PropObj)) :
    List String × Promise (JSVal PropObj) :=
  match resp with
  | .error m => ([m], .resolved .undef)
  | .ok rows =>
    ([], .resolved (match rows with
      | [] => .undef
      | r :: _ => .val r))

/-- The `getAllReservations` SQL template of the completed revisions. -/
def reservationsSQL : String :=
  "\n  SELECT reservations.id, properties.title, properties.cost_per_night, properties.number_of_bedrooms, properties.number_of_bathrooms,\n         properties.parking_spaces, properties.cover_photo_url, reservations.start_date, reservations.end_date, avg(rating) as average_rating\n    FROM reservations\n    JOIN properties ON reservations.property_id = properties.id\n    JOIN property_reviews ON properties.id = property_reviews.property_id\n    WHERE reservations.guest_id = $1\n    GROUP BY properties.id, reservations.id\n    ORDER BY reservations.start_date\n    LIMIT $2;\n  "

/-- The single `pool.query` request issued by `getAllReservations`:
`values = [guest_id, limit]`. -/
def getAllReservationsQuery (guest : Int) (limit : Nat) : QueryReq :=
  { text := reservationsSQL, params := [JValue.num guest, JValue.num limit] }

/-- The `pool.query` requests issued by one `getUserWithEmail` call. -/
def getUserWithEmailQueries (email : String) : List QueryReq :=
  [getUserWithEmailQuery email]

/-- The `pool.query` requests issued by one `getUserWithId` call. -/
def getUserWithIdQueries (id : Int) : List QueryReq :=
  [getUserWithIdQuery id]

/-- The `pool.query` requests issued by one `addUser` call (final
revision). -/
def addUserQueries (u : UserInput) : List QueryReq :=
  [addUserQuery u]

/-- The `pool.query` requests issued by one `getAllReservations` call. -/
def getAllReservationsQueries (guest : Int) (limit : Nat) : List QueryReq :=
  [getAllReservationsQuery guest limit]

/-- The `pool.query` requests issued by one `getAllProperties` call. -/
def getAllPropertiesQueries (options : List (String × JValue)) (limit : Nat) :
    List QueryReq :=
  [getAllPropertiesQuery options limit]

/-- The `pool.query` requests issued by one `addProperty` call (final
revision). -/
def addPropertyQueries (property : PropObj) : List QueryReq :=
  [addPropertyQuery property]

/-- The plain `INSERT` (no `RETURNING`) of the earlier revisions'
`addUser`. -/
def addUserInsertQuery (u : UserInput) : QueryReq :=
  { text := "\n     INSERT INTO users (name, email, password) \n       VALUES ($1, $2, $3);\n  "
    params := [JValue.str u.name, JValue.str u.email, JValue.str u.password] }

/-- The follow-up `SELECT` of the earlier revisions' `addUser`, used to
fetch the auto-generated id. -/
def addUserSelectQuery (u : UserInput) : QueryReq :=
  { text := "\n    SELECT * FROM users \n      WHERE email = $1;\n"
    params := [JValue.str u.email] }

/-- The `pool.query` requests issued by one call of the earlier revisions'
`addUser`: the insert, then — only if the insert succeeded — the select. -/
def addUserTwoStepQueries (u : UserInput)
    (insertResp : Except String Unit) : List QueryReq :=
  match insertResp with
  | .error _ => [addUserInsertQuery u]
  | .ok _ => [addUserInsertQuery u, addUserSelectQuery u]

/-- The in-memory property cache of the earlier revisions: the keys of the
`properties` object with their stored property objects, in insertion
order. -/
def ModuleState : Type := List (Nat × PropObj)

/-- JavaScript property assignment on an object: overwrite the existing key
or append a new one. -/
def setKey : PropObj → String → JValue → PropObj
  | [], k, v => [(k, v)]
  | (k0, v0) :: rest, k, v =>
    if k0 = k then (k0, v) :: rest else (k0, v0) :: setKey rest k v

/-- JavaScript property assignment on the cache object. -/
def setCache : ModuleState → Nat → PropObj → ModuleState
  | [], k, v => [(k, v)]
  | (k0, v0) :: rest, k, v =>
    if k0 = k then (k0, v) :: rest else (k0, v0) :: setCache rest k v

/-- The earlier revisions' `addProperty`: compute the next id from the
number of cached keys, set `property.id`, store the property in the cache,
and resolve with the property. -/
def addPropertyInMemory (st : ModuleState) (property : PropObj) :
    ModuleState × PropObj :=
  let propertyId := st.length + 1
  let stored := setKey property "id" (JValue.num propertyId)
  (setCache st propertyId stored, stored)

/-- The `pool.query` requests issued by one call of the earlier revisions'
`addProperty` (it never touches the pool). -/
def addPropertyInMemoryQueries (_st : ModuleState) (_property : PropObj) :
    List QueryReq :=
  []

/-- `getUserWithEmail` as a transformer of the module's in-process state. -/
def getUserWithEmailSt (st : ModuleState) (resp : Except String (List User)) :
    ModuleState × (List String × Promise (JSVal User)) :=
  (st, getUserWithEmailRun resp)

/-- `getUserWithId` as a transformer of the module's in-process state. -/
def getUserWithIdSt (st : ModuleState) (resp : Except String (List User)) :
    ModuleState × (List String × Promise (JSVal User)) :=
  (st, getUserWithIdRun resp)

/-- `addUser` as a transformer of the module's in-process state. -/
def addUserSt (st : ModuleState) (resp : Except String (List User)) :
    ModuleState × (List String × Promise (JSVal User)) :=
  (st, addUserRun resp)

/-- `getAllReservations` as a transformer of the module's in-process
state. -/
def getAllReservationsSt (st : ModuleState)
    (resp : Except String (List ResRow)) :
    ModuleState × (List String × Promise (JSVal (List ResRow))) :=
  (st, getAllReservationsRun resp)

/-- `getAllProperties` as a transformer of the module's in-process state. -/
def getAllPropertiesSt (st : ModuleState)
    (resp : Except String (List (Property × ℚ))) :
    ModuleState × (List String × Promise (JSVal (List (Property × ℚ)))) :=
  (st, getAllPropertiesRun resp)

/-- A one-user database used to witness the point-lookup behaviour. -/
def sampleDB : DB :=
  { users := [{ id := 7, name := "n", email := "e@x", password := "p" }]
    properties := []
    reservations := []
    property_reviews := [] }

/-- A small database (one property, one reservation of guest 5, two
reviews) used to witness the reservations query. -/
def resWitnessDB : DB :=
  { users := []
    properties := [{ id := 1, title := "t", cost_per_night := 9000
                     number_of_bedrooms := 2, number_of_bathrooms := 1
                     parking_spaces := 1, cover_photo_url := "c"
                     city := "Van" }]
    reservations := [{ id := 1, guest_id := 5, property_id := 1
                       start_date := 10, end_date := 12 }]
    property_reviews := [{ id := 1, property_id := 1, rating := 3 },
                         { id := 2, property_id := 1, rating := 5 }] }

set_option maxRecDepth 16000

theorem strApp_ne_of_ne_at (p q a b : String) (i : Nat)
    (hp : i < p.data.length) (hq : i < q.data.length)
    (h : p.data[i]? ≠ q.data[i]?) : p ++ a ≠ q ++ b := by
  intro heq
  apply h
  have hd : p.data ++ a.data = q.data ++ b.data := by
    rw [← String.data_append, ← String.data_append, heq]
  calc p.data[i]? = (p.data ++ a.data)[i]? :=
        (List.getElem?_append_left hp).symm
    _ = (q.data ++ b.data)[i]? := by rw [hd]
    _ = q.data[i]? := List.getElem?_append_left hq

theorem filterStep_of_pre {key pre : String} (v : JValue) (count : Nat)
    (hpre : filterPre key = some pre) :
    filterStep key v count = ([bindVal key v], [pre ++ toString count]) := by
  by_cases h1 : key = "city"
  · subst h1
    simp [filterPre] at hpre
    subst hpre
    simp [filterStep, bindVal]
  · by_cases h2 : key = "minimum_price_per_night"
    · subst h2
      simp [filterPre] at hpre
      subst hpre
      simp [filterStep, bindVal]
    · by_cases h3 : key = "maximum_price_per_night"
      · subst h3
        simp [filterPre] at hpre
        subst hpre
        simp [filterStep, bindVal]
      · by_cases h4 : key = "minimum_rating"
        · subst h4
          simp [filterPre] at hpre
          subst hpre
          simp [filterStep, bindVal, h1]
        · simp [filterPre, h1, h2, h3, h4] at hpre

theorem filterStep_of_none {key : String} (v : JValue) (count : Nat)
    (hpre : filterPre key = none) : filterStep key v count = ([], []) := by
  by_cases h1 : key = "city"
  · subst h1; simp [filterPre] at hpre
  · by_cases h2 : key = "minimum_price_per_night"
    · subst h2; simp [filterPre] at hpre
    · by_cases h3 : key = "maximum_price_per_night"
      · subst h3; simp [filterPre] at hpre
      · by_cases h4 : key = "minimum_rating"
        · subst h4; simp [filterPre] at hpre
        · simp [filterStep, h1, h2, h3, h4]

theorem filterPre_val_inj {key1 key2 pre1 pre2 : String}
    (h1 : filterPre key1 = some pre1) (h2 : filterPre key2 = some pre2)
    {k1 k2 : Nat} (heq : pre1 ++ toString k1 = pre2 ++ toString k2) :
    key1 = key2 := by
  have hcases : ∀ key pre, filterPre key = some pre →
      (key = "city" ∧ pre = "properties.city = $") ∨
      (key = "minimum_price_per_night" ∧
        pre = "properties.cost_per_night >= $") ∨
      (key = "maximum_price_per_night" ∧
        pre = "properties.cost_per_night <= $") ∨
      (key = "minimum_rating" ∧ pre = "rating >= $") := by
    intro key pre h
    by_cases a1 : key = "city"
    · subst a1; simp [filterPre] at h; exact Or.inl ⟨rfl, h.symm⟩
    · by_cases a2 : key = "minimum_price_per_night"
      · subst a2; simp [filterPre] at h
        exact Or.inr (Or.inl ⟨rfl, h.symm⟩)
      · by_cases a3 : key = "maximum_price_per_night"
        · subst a3; simp [filterPre] at h
          exact Or.inr (Or.inr (Or.inl ⟨rfl, h.symm⟩))
        · by_cases a4 : key = "minimum_rating"
          · subst a4; simp [filterPre] at h
            exact Or.inr (Or.inr (Or.inr ⟨rfl, h.symm⟩))
          · simp [filterPre, a1, a2, a3, a4] at h
  rcases hcases key1 pre1 h1 with ⟨e1, f1⟩ | ⟨e1, f1⟩ | ⟨e1, f1⟩ | ⟨e1, f1⟩ <;>
    rcases hcases key2 pre2 h2 with ⟨e2, f2⟩ | ⟨e2, f2⟩ | ⟨e2, f2⟩ | ⟨e2, f2⟩ <;>
    subst e1 <;> subst e2 <;> subst f1 <;> subst f2 <;>
    first
      | rfl
      | exact absurd heq
          (strApp_ne_of_ne_at _ _ _ _ 0 (by decide) (by decide) (by decide))
      | exact absurd heq
          (strApp_ne_of_ne_at _ _ _ _ 12 (by decide) (by decide) (by decide))
      | exact absurd heq
          (strApp_ne_of_ne_at _ _ _ _ 26 (by decide) (by decide) (by decide))

theorem buildFilters_cons_of_ne (key0 : String) (v0 : JValue)
    (rest : List (String × JValue)) (count : Nat) (h : v0 ≠ JValue.str "") :
    buildFilters ((key0, v0) :: rest) count =
      ((filterStep key0 v0 count).1 ++ (buildFilters rest (count + 1)).1,
       (filterStep key0 v0 count).2 ++ (buildFilters rest (count + 1)).2) := by
  simp [buildFilters, h]

theorem buildFilters_cons_of_empty (key0 : String)
    (rest : List (String × JValue)) (count : Nat) :
    buildFilters ((key0, JValue.str "") :: rest) count =
      buildFilters rest count := by
  simp [buildFilters]

theorem buildFilters_clause_exists :
    ∀ (opts : List (String × JValue)) (count : Nat) {key : String}
      {v : JValue} {pre : String},
      (key, v) ∈ opts → v ≠ JValue.str "" → filterPre key = some pre →
      ∃ k, count ≤ k ∧ (pre ++ toString k) ∈ (buildFilters opts count).2
  | [], _, _, _, _, hmem, _, _ => absurd hmem (List.not_mem_nil _)
  | (key0, v0) :: rest, count, key, v, pre, hmem, hne, hpre => by
    by_cases hv0 : v0 = JValue.str ""
    · subst hv0
      rw [buildFilters_cons_of_empty]
      rcases List.mem_cons.mp hmem with heq | htail
      · cases heq; exact absurd rfl hne
      · exact buildFilters_clause_exists rest count htail hne hpre
    · rw [buildFilters_cons_of_ne _ _ _ _ hv0]
      rcases List.mem_cons.mp hmem with heq | htail
      · cases heq
        refine ⟨count, le_rfl, ?_⟩
        rw [filterStep_of_pre _ _ hpre]
        exact List.mem_append_left _ (List.mem_singleton.mpr rfl)
      · obtain ⟨k, hk, hmem'⟩ :=
          buildFilters_clause_exists rest (count + 1) htail hne hpre
        exact ⟨k, by omega, List.mem_append_right _ hmem'⟩

theorem buildFilters_clause_origin :
    ∀ (opts : List (String × JValue)) (count : Nat) {c : String},
      c ∈ (buildFilters opts count).2 →
      ∃ key v pre k, (key, v) ∈ opts ∧ v ≠ JValue.str "" ∧
        filterPre key = some pre ∧ count ≤ k ∧ c = pre ++ toString k
  | [], _, _, hc => absurd hc (List.not_mem_nil _)
  | (key0, v0) :: rest, count, c, hc => by
    by_cases hv0 : v0 = JValue.str ""
    · subst hv0
      rw [buildFilters_cons_of_empty] at hc
      obtain ⟨key, v, pre, k, hmem, hne, hpre, hk, hcek⟩ :=
        buildFilters_clause_origin rest count hc
      exact ⟨key, v, pre, k, List.mem_cons_of_mem _ hmem, hne, hpre, hk, hcek⟩
    · rw [buildFilters_cons_of_ne _ _ _ _ hv0] at hc
      rcases List.mem_append.mp hc with hhead | htail
      · cases hfp : filterPre key0 with
        | some pre0 =>
          rw [filterStep_of_pre _ _ hfp] at hhead
          refine ⟨key0, v0, pre0, count, List.mem_cons_self _ _, hv0, hfp,
            le_rfl, ?_⟩
          exact (List.mem_singleton.mp hhead)
        | none =>
          rw [filterStep_of_none _ _ hfp] at hhead
          exact absurd hhead (List.not_mem_nil _)
      · obtain ⟨key, v, pre, k, hmem, hne, hpre, hk, hcek⟩ :=
          buildFilters_clause_origin rest (count + 1) htail
        exact ⟨key, v, pre, k, List.mem_cons_of_mem _ hmem, hne, hpre,
          by omega, hcek⟩

theorem buildFilters_aligned :
    ∀ (opts : List (String × JValue)) (count : Nat),
      (∀ kv ∈ opts, kv.2 ≠ JValue.str "" → (filterPre kv.1).isSome) →
      ∀ {key : String} {v : JValue} {pre : String},
      (key, v) ∈ opts → v ≠ JValue.str "" → filterPre key = some pre →
      ∃ k, count ≤ k ∧ (pre ++ toString k) ∈ (buildFilters opts count).2 ∧
        (buildFilters opts count).1[k - count]? = some (bindVal key v)
  | [], _, _, _, _, _, hmem, _, _ => absurd hmem (List.not_mem_nil _)
  | (key0, v0) :: rest, count, hwf, key, v, pre, hmem, hne, hpre => by
    by_cases hv0 : v0 = JValue.str ""
    · subst hv0
      rw [buildFilters_cons_of_empty]
      rcases List.mem_cons.mp hmem with heq | htail
      · cases heq; exact absurd rfl hne
      · exact buildFilters_aligned rest count
          (fun kv h => hwf kv (List.mem_cons_of_mem _ h)) htail hne hpre
    · rw [buildFilters_cons_of_ne _ _ _ _ hv0]
      rcases List.mem_cons.mp hmem with heq | htail
      · cases heq
        refine ⟨count, le_rfl, ?_, ?_⟩
        · rw [filterStep_of_pre _ _ hpre]
          exact List.mem_append_left _ (List.mem_singleton.mpr rfl)
        · rw [filterStep_of_pre _ _ hpre]
          simp
      · obtain ⟨pre0, hpre0⟩ := Option.isSome_iff_exists.mp
          (hwf (key0, v0) (List.mem_cons_self _ _) hv0)
        obtain ⟨k, hk, hcl, hval⟩ :=
          buildFilters_aligned rest (count + 1)
            (fun kv h => hwf kv (List.mem_cons_of_mem _ h)) htail hne hpre
        refine ⟨k, by omega, ?_, ?_⟩
        · exact List.mem_append_right _ hcl
        · rw [filterStep_of_pre _ _ hpre0]
          have h1 : ([bindVal key0 v0] : List JValue).length ≤ k - count := by
            simp; omega
          rw [List.getElem?_append_right h1]
          have : k - count - ([bindVal key0 v0] : List JValue).length =
              k - (count + 1) := by simp; omega
          rw [this]
          exact hval

theorem buildFilters_of_no_filters :
    ∀ (opts : List (String × JValue)) (count : Nat),
      (∀ kv ∈ opts, kv.2 ≠ JValue.str "" → filterPre kv.1 = none) →
      buildFilters opts count = ([], [])
  | [], _, _ => rfl
  | (key0, v0) :: rest, count, h => by
    by_cases hv0 : v0 = JValue.str ""
    · subst hv0
      rw [buildFilters_cons_of_empty]
      exact buildFilters_of_no_filters rest count
        (fun kv hm => h kv (List.mem_cons_of_mem _ hm))
    · rw [buildFilters_cons_of_ne _ _ _ _ hv0]
      rw [filterStep_of_none _ _ (h (key0, v0) (List.mem_cons_self _ _) hv0)]
      rw [buildFilters_of_no_filters rest (count + 1)
        (fun kv hm => h kv (List.mem_cons_of_mem _ hm))]
      rfl

/-- C1: in `getAllProperties` the optional filter conditions are joined with
`AND` in the generated WHERE clause; a condition for one of the four filter
fields is generated if and only if that field occurs in the options object
with a non-`''` value; and when no filter field is supplied with a non-`''`
value the assembled query text contains no WHERE clause at all. -/
theorem claim1_getAllProperties_filters (opts : List (String × JValue))
    (limit : Nat) :
    (∀ key pre, filterPre key = some pre →
      ((∃ k : Nat, (pre ++ toString k) ∈ (buildFilters opts 2).2) ↔
        ∃ v, (key, v) ∈ opts ∧ v ≠ JValue.str "")) ∧
    ((buildFilters opts 2).2 ≠ [] →
      (getAllPropertiesQuery opts limit).text =
        sqlPropHead ++
          ("WHERE " ++ String.intercalate " AND " (buildFilters opts 2).2 ++
            " ") ++ sqlPropTail) ∧
    ((∀ kv ∈ opts, kv.2 ≠ JValue.str "" → filterPre kv.1 = none) →
      ¬ ("WHERE".data <:+: (getAllPropertiesQuery opts limit).text.data)) := by
  refine ⟨?_, ?_, ?_⟩
  · intro key pre hpre
    constructor
    · rintro ⟨k, hk⟩
      obtain ⟨key', v', pre', k', hmem, hne, hpre', _, heq⟩ :=
        buildFilters_clause_origin opts 2 hk
      have hkey : key = key' := filterPre_val_inj hpre hpre' heq
      exact ⟨v', hkey ▸ hmem, hne⟩
    · rintro ⟨v, hmem, hne⟩
      obtain ⟨k, _, hk⟩ := buildFilters_clause_exists opts 2 hmem hne hpre
      exact ⟨k, hk⟩
  · intro hne
    have hpos : 0 < (buildFilters opts 2).2.length := List.length_pos.mpr hne
    simp only [getAllPropertiesQuery, if_pos hpos]
  · intro hnone
    have hbf := buildFilters_of_no_filters opts 2 hnone
    simp only [getAllPropertiesQuery, hbf]
    decide

/-- Witness for C1 at a concrete options object: when the only supplied
filter field is `''`, the assembled query has no WHERE clause. -/
theorem claim1_witness :
    (filterPre "city" = some "properties.city = $") ∧
    (∃ k : Nat, ("properties.city = $" ++ toString k) ∈
        (buildFilters [("city", JValue.str "Van")] 2).2) ∧
    (∀ kv ∈ ([("city", JValue.str "")] : List (String × JValue)),
        kv.2 ≠ JValue.str "" → filterPre kv.1 = none) ∧
    ¬ ("WHERE".data <:+:
        (getAllPropertiesQuery [("city", JValue.str "")] 10).text.data) :=
  ⟨by decide,
    ((claim1_getAllProperties_filters [("city", JValue.str "Van")] 10).1
      "city" "properties.city = $" (by decide)).mpr
      ⟨JValue.str "Van", List.mem_singleton.mpr rfl, by decide⟩,
    by decide,
    (claim1_getAllProperties_filters [("city", JValue.str "")] 10).2.2
      (by decide)⟩

/-- C9: in `getAllProperties`, a supplied non-`''` minimum or maximum price
value is multiplied by 100 before being bound as the parameter that the
generated `cost_per_night` condition compares against, while the city and
minimum-rating values are bound unchanged; and the multiplication is real
multiplication by 100 on numbers. -/
theorem claim9_price_scaling (opts : List (String × JValue)) (limit : Nat)
    (hwf : ∀ kv ∈ opts, kv.2 ≠ JValue.str "" → (filterPre kv.1).isSome) :
    (∀ v : JValue, ("minimum_price_per_night", v) ∈ opts →
      v ≠ JValue.str "" →
      ∃ k : Nat, ("properties.cost_per_night >= $" ++ toString k) ∈
          (buildFilters opts 2).2 ∧
        (getAllPropertiesQuery opts limit).params[k - 1]? =
          some (jsMul100 v)) ∧
    (∀ v : JValue, ("maximum_price_per_night", v) ∈ opts →
      v ≠ JValue.str "" →
      ∃ k : Nat, ("properties.cost_per_night <= $" ++ toString k) ∈
          (buildFilters opts 2).2 ∧
        (getAllPropertiesQuery opts limit).params[k - 1]? =
          some (jsMul100 v)) ∧
    (∀ v : JValue, ("city", v) ∈ opts → v ≠ JValue.str "" →
      ∃ k : Nat, ("properties.city = $" ++ toString k) ∈ (buildFilters opts 2).2 ∧
        (getAllPropertiesQuery opts limit).params[k - 1]? = some v) ∧
    (∀ v : JValue, ("minimum_rating", v) ∈ opts → v ≠ JValue.str "" →
      ∃ k : Nat, ("rating >= $" ++ toString k) ∈ (buildFilters opts 2).2 ∧
        (getAllPropertiesQuery opts limit).params[k - 1]? = some v) ∧
    (∀ n : Int, jsMul100 (JValue.num n) = JValue.num (n * 100)) := by
  have main : ∀ (key pre : String) (v : JValue), filterPre key = some pre →
      (key, v) ∈ opts → v ≠ JValue.str "" →
      ∃ k : Nat, (pre ++ toString k) ∈ (buildFilters opts 2).2 ∧
        (getAllPropertiesQuery opts limit).params[k - 1]? =
          some (bindVal key v) := by
    intro key pre v hpre hmem hne
    obtain ⟨k, hk2, hcl, hval⟩ :=
      buildFilters_aligned opts 2 hwf hmem hne hpre
    refine ⟨k, hcl, ?_⟩
    have hparams : (getAllPropertiesQuery opts limit).params =
        JValue.num limit :: (buildFilters opts 2).1 := rfl
    have hk1 : k - 1 = (k - 2) + 1 := by omega
    rw [hparams, hk1]
    simpa using hval
  refine ⟨?_, ?_, ?_, ?_, ?_⟩
  · intro v hm hn
    obtain ⟨k, h1, h2⟩ :=
      main "minimum_price_per_night" "properties.cost_per_night >= $" v
        (by decide) hm hn
    exact ⟨k, h1, by simpa [bindVal] using h2⟩
  · intro v hm hn
    obtain ⟨k, h1, h2⟩ :=
      main "maximum_price_per_night" "properties.cost_per_night <= $" v
        (by decide) hm hn
    exact ⟨k, h1, by simpa [bindVal] using h2⟩
  · intro v hm hn
    obtain ⟨k, h1, h2⟩ :=
      main "city" "properties.city = $" v (by decide) hm hn
    exact ⟨k, h1, by simpa [bindVal] using h2⟩
  · intro v hm hn
    obtain ⟨k, h1, h2⟩ :=
      main "minimum_rating" "rating >= $" v (by decide) hm hn
    exact ⟨k, h1, by simpa [bindVal] using h2⟩
  · intro n
    rfl

/-- Witness for C9 at a concrete options object: a minimum price of 3 is
bound as 300. -/
theorem claim9_witness :
    (∀ kv ∈ ([("minimum_price_per_night", JValue.num 3)] :
        List (String × JValue)),
      kv.2 ≠ JValue.str "" → (filterPre kv.1).isSome) ∧
    ∃ k : Nat, ("properties.cost_per_night >= $" ++ toString k) ∈
        (buildFilters [("minimum_price_per_night", JValue.num 3)] 2).2 ∧
      (getAllPropertiesQuery [("minimum_price_per_night", JValue.num 3)]
          10).params[k - 1]? = some (jsMul100 (JValue.num 3)) :=
  ⟨by decide,
    (claim9_price_scaling [("minimum_price_per_night", JValue.num 3)] 10
      (by decide)).1 (JValue.num 3) (List.mem_singleton.mpr rfl) (by decide)⟩

/-- C2: every query function catches a failed database call, logs the
error message, and resolves with `undefined`; no query function ever
returns a rejected promise, whatever the database answers. -/
theorem claim2_errors_swallowed :
    (∀ m : String,
      getUserWithEmailRun (.error m) = ([m], .resolved .undef) ∧
      getUserWithIdRun (.error m) = ([m], .resolved .undef) ∧
      addUserRun (.error m) = ([m], .resolved .undef) ∧
      getAllReservationsRun (.error m) = ([m], .resolved .undef) ∧
      getAllPropertiesRun (.error m) = ([m], .resolved .undef) ∧
      addPropertyRun (.error m) = ([m], .resolved .undef)) ∧
    (∀ (ru : Except String (List User)) (rr : Except String (List ResRow))
        (rp : Except String (List (Property × ℚ)))
        (ro : Except String (List PropObj)) (m : String),
      (getUserWithEmailRun ru).2 ≠ Promise.rejected m ∧
      (getUserWithIdRun ru).2 ≠ Promise.rejected m ∧
      (addUserRun ru).2 ≠ Promise.rejected m ∧
      (getAllReservationsRun rr).2 ≠ Promise.rejected m ∧
      (getAllPropertiesRun rp).2 ≠ Promise.rejected m ∧
      (addPropertyRun ro).2 ≠ Promise.rejected m) := by
  refine ⟨fun m => ⟨rfl, rfl, rfl, rfl, rfl, rfl⟩, ?_⟩
  intro ru rr rp ro m
  refine ⟨?_, ?_, ?_, ?_, ?_, ?_⟩
  · cases ru <;> simp [getUserWithEmailRun]
  · cases ru <;> simp [getUserWithIdRun]
  · cases ru <;> simp [addUserRun]
  · cases rr <;> simp [getAllReservationsRun]
  · cases rp <;> simp [getAllPropertiesRun]
  · cases ro <;> simp [addPropertyRun]

/-- C4 counterexample: the earlier revisions' `addUser` issues two queries
when its insert succeeds, and their in-memory `addProperty` issues none, so
not every exported data-access function issues exactly one query. -/
theorem claim4_counterexample :
    (addUserTwoStepQueries
        { name := "a", email := "a@b.c", password := "p" } (.ok ())).length
      = 2 ∧
    (addPropertyInMemoryQueries [] [("title", JValue.str "t")]).length
      = 0 ∧
    ¬ ((addUserTwoStepQueries
        { name := "a", email := "a@b.c", password := "p" } (.ok ())).length
      = 1) :=
  ⟨rfl, rfl, by decide⟩

/-- C4 (amended): each query function of the final revision issues exactly
one `pool.query` request per call; in the earlier revisions `addUser` issues
one request when the insert fails and two when it succeeds, and the
in-memory `addProperty` issues none. -/
theorem claim4_query_counts (email : String) (id guest : Int)
    (limit : Nat) (u : UserInput) (opts : List (String × JValue))
    (property : PropObj) (st : ModuleState) (m : String) :
    (getUserWithEmailQueries email).length = 1 ∧
    (getUserWithIdQueries id).length = 1 ∧
    (addUserQueries u).length = 1 ∧
    (getAllReservationsQueries guest limit).length = 1 ∧
    (getAllPropertiesQueries opts limit).length = 1 ∧
    (addPropertyQueries property).length = 1 ∧
    (addUserTwoStepQueries u (.error m)).length = 1 ∧
    (addUserTwoStepQueries u (.ok ())).length = 2 ∧
    addPropertyInMemoryQueries st property = [] :=
  ⟨rfl, rfl, rfl, rfl, rfl, rfl, rfl, rfl, rfl⟩

/-- C5: `addUser` inserts the supplied name, email and password as a new
row of the users table, and the promise resolves with the stored row,
including the database-assigned id. -/
theorem claim5_addUser_inserts (db : DB) (newId : Int) (u : UserInput) :
    (insertUserReturning db newId u).1.users =
      db.users ++ [(insertUserReturning db newId u).2] ∧
    (insertUserReturning db newId u).1.properties = db.properties ∧
    (insertUserReturning db newId u).1.reservations = db.reservations ∧
    (insertUserReturning db newId u).1.property_reviews =
      db.property_reviews ∧
    (insertUserReturning db newId u).2.id = newId ∧
    (insertUserReturning db newId u).2.name = u.name ∧
    (insertUserReturning db newId u).2.email = u.email ∧
    (insertUserReturning db newId u).2.password = u.password ∧
    addUserRun (.ok [(insertUserReturning db newId u).2]) =
      ([], .resolved (.val (insertUserReturning db newId u).2)) :=
  ⟨rfl, rfl, rfl, rfl, rfl, rfl, rfl, rfl, rfl⟩

/-- C6: `getUserWithEmail` and `getUserWithId` are point lookups: when a
matching row exists the promise resolves with one matching user record, and
when none matches it resolves with `null`. -/
theorem claim6_point_lookups (db : DB) (email : String) (id : Int) :
    ((∃ u ∈ db.users, u.email = email) →
      ∃ u, u ∈ db.users ∧ u.email = email ∧
        getUserWithEmailRun (.ok (usersWithEmail db email)) =
          ([], .resolved (.val u))) ∧
    ((∀ u ∈ db.users, u.email ≠ email) →
      getUserWithEmailRun (.ok (usersWithEmail db email)) =
        ([], .resolved .null)) ∧
    ((∃ u ∈ db.users, u.id = id) →
      ∃ u, u ∈ db.users ∧ u.id = id ∧
        getUserWithIdRun (.ok (usersWithId db id)) =
          ([], .resolved (.val u))) ∧
    ((∀ u ∈ db.users, u.id ≠ id) →
      getUserWithIdRun (.ok (usersWithId db id)) =
        ([], .resolved .null)) := by
  refine ⟨?_, ?_, ?_, ?_⟩
  · rintro ⟨u, hu, he⟩
    cases h : usersWithEmail db email with
    | nil =>
      have := List.filter_eq_nil_iff.mp h u hu
      simp [he] at this
    | cons u0 rest =>
      have hu0 : u0 ∈ usersWithEmail db email := by
        rw [h]; exact List.mem_cons_self _ _
      have := List.mem_filter.mp hu0
      refine ⟨u0, this.1, by simpa using this.2, ?_⟩
      rfl
  · intro hall
    have h : usersWithEmail db email = [] :=
      List.filter_eq_nil_iff.mpr (fun u hu => by simp [hall u hu])
    rw [h]
    rfl
  · rintro ⟨u, hu, he⟩
    cases h : usersWithId db id with
    | nil =>
      have := List.filter_eq_nil_iff.mp h u hu
      simp [he] at this
    | cons u0 rest =>
      have hu0 : u0 ∈ usersWithId db id := by
        rw [h]; exact List.mem_cons_self _ _
      have := List.mem_filter.mp hu0
      refine ⟨u0, this.1, by simpa using this.2, ?_⟩
      rfl
  · intro hall
    have h : usersWithId db id = [] :=
      List.filter_eq_nil_iff.mpr (fun u hu => by simp [hall u hu])
    rw [h]
    rfl

/-- Witness for C6 at a concrete database: the lookup finds the one stored
user. -/
theorem claim6_witness :
    ((∃ u ∈ sampleDB.users, u.email = "e@x") ∧
      ∃ u, u ∈ sampleDB.users ∧ u.email = "e@x" ∧
        getUserWithEmailRun (.ok (usersWithEmail sampleDB "e@x")) =
          ([], .resolved (.val u))) ∧
    ((∀ u ∈ sampleDB.users, u.email ≠ "zz") ∧
      getUserWithEmailRun (.ok (usersWithEmail sampleDB "zz")) =
        ([], .resolved .null)) :=
  ⟨⟨by decide, (claim6_point_lookups sampleDB "e@x" 0).1 (by decide)⟩,
    ⟨by decide, (claim6_point_lookups sampleDB "zz" 0).2.1 (by decide)⟩⟩

theorem patchAt_length (vs : List JValue) (i : Nat) :
    (patchAt vs i).length = vs.length := by
  unfold patchAt
  split <;> simp

theorem patchAt_getElem (vs : List JValue) (i j : Nat) :
    (patchAt vs i)[j]? =
      if j = i ∧ vs[i]? = some (JValue.str "") then some (JValue.str "0")
      else vs[j]? := by
  by_cases h : vs[i]? = some (JValue.str "")
  · have hi : i < vs.length := by
      by_contra hc
      have : vs[i]? = none := List.getElem?_eq_none (by omega)
      simp [this] at h
    rw [patchAt, if_pos h, List.getElem?_set]
    by_cases hj : j = i
    · subst hj
      simp [hi, h]
    · have hij : ¬ i = j := fun hc => hj hc.symm
      simp [hj, hij]
  · rw [patchAt, if_neg h]
    simp [h]

/-- C7: the only input transformation `addProperty` performs is replacing
an empty-string value at positions 2–5 of the property values array by the
string `'0'`; every other position is bound into the query unchanged, and
the parameter array of the issued query is exactly the patched values. -/
theorem claim7_addProperty_patching (property : PropObj) :
    (addPropertyQuery property).params = addPropertyValues property ∧
    (addPropertyValues property).length = (propValues property).length ∧
    (∀ i : Nat, (addPropertyValues property)[i]? =
      if (2 ≤ i ∧ i ≤ 5) ∧ (propValues property)[i]? = some (JValue.str "")
      then some (JValue.str "0")
      else (propValues property)[i]?) := by
  refine ⟨rfl, ?_, ?_⟩
  · unfold addPropertyValues
    rw [patchAt_length, patchAt_length, patchAt_length, patchAt_length]
  · intro i
    have h13 : (patchAt (propValues property) 2)[3]? =
        (propValues property)[3]? := by
      rw [patchAt_getElem]; simp
    have h24 : (patchAt (patchAt (propValues property) 2) 3)[4]? =
        (propValues property)[4]? := by
      rw [patchAt_getElem]; simp
      rw [patchAt_getElem]; simp
    have h35 : (patchAt (patchAt (patchAt (propValues property) 2) 3) 4)[5]? =
        (propValues property)[5]? := by
      rw [patchAt_getElem]; simp
      rw [patchAt_getElem]; simp
      rw [patchAt_getElem]; simp
    unfold addPropertyValues
    rw [patchAt_getElem, h35, patchAt_getElem, h24, patchAt_getElem, h13,
      patchAt_getElem]
    by_cases h5 : i = 5
    · subst h5; by_cases hv : (propValues property)[5]? = some (JValue.str "")
        <;> simp [hv]
    · by_cases h4 : i = 4
      · subst h4
        by_cases hv : (propValues property)[4]? = some (JValue.str "")
          <;> simp [hv]
      · by_cases h3 : i = 3
        · subst h3
          by_cases hv : (propValues property)[3]? = some (JValue.str "")
            <;> simp [hv]
        · by_cases h2 : i = 2
          · subst h2
            by_cases hv : (propValues property)[2]? = some (JValue.str "")
              <;> simp [hv]
          · have hno : ¬ (2 ≤ i ∧ i ≤ 5) := by omega
            simp [h2, h3, h4, h5, hno]

/-- C8: the query functions neither change nor read the module's in-process
state (the in-memory `properties` cache): each leaves the state unchanged
and produces output independent of it; the only in-process mutation in the
module is the earlier revisions' `addProperty` storing the new property in
that cache. -/
theorem claim8_state_frame (st st2 : ModuleState)
    (ru : Except String (List User)) (rr : Except String (List ResRow))
    (rp : Except String (List (Property × ℚ))) (property : PropObj) :
    (getUserWithEmailSt st ru).1 = st ∧
    (getUserWithIdSt st ru).1 = st ∧
    (addUserSt st ru).1 = st ∧
    (getAllReservationsSt st rr).1 = st ∧
    (getAllPropertiesSt st rp).1 = st ∧
    (getUserWithEmailSt st ru).2 = (getUserWithEmailSt st2 ru).2 ∧
    (getUserWithIdSt st ru).2 = (getUserWithIdSt st2 ru).2 ∧
    (addUserSt st ru).2 = (addUserSt st2 ru).2 ∧
    (getAllReservationsSt st rr).2 = (getAllReservationsSt st2 rr).2 ∧
    (getAllPropertiesSt st rp).2 = (getAllPropertiesSt st2 rp).2 ∧
    (addPropertyInMemory st property).1 =
      setCache st (st.length + 1)
        (setKey property "id" (JValue.num (st.length + 1))) ∧
    (addPropertyInMemory st property).2 =
      setKey property "id" (JValue.num (st.length + 1)) :=
  ⟨rfl, rfl, rfl, rfl, rfl, rfl, rfl, rfl, rfl, rfl, rfl, rfl⟩

/-- C10: a successful `getAllProperties` resolves with at most `limit` rows
(`LIMIT $1`); an omitted `limit` argument defaults to 10; and the limit is
always the first bound query parameter, whatever filters are generated. -/
theorem claim10_limit (db : DB) (opts : List (String × JValue))
    (limit : Nat) :
    (evalGetAllProperties db opts limit).length ≤ limit ∧
    getAllPropertiesCall opts none = getAllPropertiesQuery opts 10 ∧
    (getAllPropertiesQuery opts limit).params.head? =
      some (JValue.num limit) :=
  ⟨List.length_take_le _ _, rfl, rfl⟩

theorem mem_insertByDate (x y : ResRow) (l : List ResRow) :
    y ∈ insertByDate x l ↔ y = x ∨ y ∈ l := by
  induction l with
  | nil => simp [insertByDate]
  | cons hd tl ih =>
    unfold insertByDate
    split
    · simp
    · rw [List.mem_cons, ih, List.mem_cons]
      tauto

theorem mem_sortByDate (y : ResRow) (l : List ResRow) :
    y ∈ sortByDate l ↔ y ∈ l := by
  induction l with
  | nil => simp [sortByDate]
  | cons hd tl ih =>
    unfold sortByDate
    rw [mem_insertByDate, ih, List.mem_cons]

theorem flatMap_eq_nil_of {α β : Type} (l : List α) (f : α → List β)
    (h : ∀ b ∈ l, f b = []) : l.flatMap f = [] := by
  induction l with
  | nil => rfl
  | cons hd tl ih =>
    rw [List.flatMap_cons, h hd (List.mem_cons_self _ _),
      ih (fun b hb => h b (List.mem_cons_of_mem _ hb))]
    rfl

theorem flatMap_eq_of_unique {α β : Type} (l : List α) (f : α → List β)
    (key : α → Int) (hnd : (l.map key).Nodup) (a : α) (ha : a ∈ l)
    (hother : ∀ b ∈ l, key b ≠ key a → f b = []) : l.flatMap f = f a := by
  induction l with
  | nil => exact absurd ha (List.not_mem_nil _)
  | cons hd tl ih =>
    rw [List.map_cons, List.nodup_cons] at hnd
    rcases List.mem_cons.mp ha with heq | hmem
    · subst heq
      rw [List.flatMap_cons]
      have htl : tl.flatMap f = [] := by
        apply flatMap_eq_nil_of
        intro b hb
        apply hother b (List.mem_cons_of_mem _ hb)
        intro hk
        exact hnd.1 (hk ▸ List.mem_map_of_mem key hb)
      rw [htl, List.append_nil]
    · rw [List.flatMap_cons]
      have hhd : f hd = [] := by
        apply hother hd (List.mem_cons_self _ _)
        intro hk
        exact hnd.1 (hk.symm ▸ List.mem_map_of_mem key hmem)
      rw [hhd, List.nil_append]
      exact ih hnd.2 hmem (fun b hb => hother b (List.mem_cons_of_mem _ hb))

theorem mem_reservationsJoin {db : DB} {t : Reservation × Property × Review}
    (ht : t ∈ reservationsJoin db) :
    t.1 ∈ db.reservations ∧ t.2.1 ∈ db.properties ∧
      t.1.property_id = t.2.1.id ∧ t.2.2 ∈ db.property_reviews ∧
      (t.2.1.id == t.2.2.property_id) = true := by
  unfold reservationsJoin at ht
  rw [List.mem_flatMap] at ht
  obtain ⟨rv, hrv, ht⟩ := ht
  rw [List.mem_flatMap] at ht
  obtain ⟨p, hp, ht⟩ := ht
  split at ht
  · obtain ⟨r, hr, hte⟩ := List.mem_map.mp ht
    obtain ⟨hr1, hr2⟩ := List.mem_filter.mp hr
    subst hte
    exact ⟨hrv, hp, by assumption, hr1, hr2⟩
  · exact absurd ht (List.not_mem_nil _)

theorem resGroup_eq (db : DB) (guest : Int) (k : Int × Int)
    (hp : (db.properties.map fun p => p.id).Nodup)
    (hr : (db.reservations.map fun rv => rv.id).Nodup)
    (t : Reservation × Property × Review)
    (ht : t ∈ (reservationsJoin db).filter fun x => x.1.guest_id == guest)
    (hpk : (t.2.1.id == k.1 && t.1.id == k.2) = true) :
    ((reservationsJoin db).filter (fun x => x.1.guest_id == guest)).filter
        (fun x => x.2.1.id == k.1 && x.1.id == k.2) =
      (db.property_reviews.filter fun r => t.2.1.id == r.property_id).map
        fun r => (t.1, t.2.1, r) := by
  obtain ⟨htj, hguest⟩ := List.mem_filter.mp ht
  obtain ⟨hrv_mem, hp_mem, hprop, _, _⟩ := mem_reservationsJoin htj
  rcases t with ⟨rv, p, r0⟩
  simp only at hrv_mem hp_mem hprop hguest hpk
  rw [Bool.and_eq_true, beq_iff_eq, beq_iff_eq] at hpk
  obtain ⟨hk1, hk2⟩ := hpk
  rw [List.filter_filter]
  unfold reservationsJoin
  simp only [List.filter_flatMap]
  rw [flatMap_eq_of_unique db.reservations _ (fun x => x.id) hr rv hrv_mem
    (fun rv' _ hne => by
      apply flatMap_eq_nil_of
      intro p' _
      apply List.filter_eq_nil_iff.mpr
      intro x hx
      have hx1 : x.1 = rv' := by
        split at hx
        · obtain ⟨r', _, hxe⟩ := List.mem_map.mp hx
          rw [← hxe]
        · exact absurd hx (List.not_mem_nil _)
      simp only [Bool.and_eq_true, beq_iff_eq, hx1, not_and]
      intro hcond
      exact absurd (hcond.2.trans hk2.symm ▸ rfl : rv'.id = rv.id)
        (by simpa using hne))]
  rw [flatMap_eq_of_unique db.properties _ (fun x => x.id) hp p hp_mem
    (fun p' _ hne => by
      apply List.filter_eq_nil_iff.mpr
      intro x hx
      have hx2 : x.2.1 = p' := by
        split at hx
        · obtain ⟨r', _, hxe⟩ := List.mem_map.mp hx
          rw [← hxe]
        · exact absurd hx (List.not_mem_nil _)
      simp only [Bool.and_eq_true, beq_iff_eq, hx2, not_and]
      intro hcond
      exact absurd (hcond.1.trans hk1.symm ▸ rfl : p'.id = p.id)
        (by simpa using hne))]
  rw [if_pos hprop]
  rw [List.filter_map]
  have hconst : ((fun x : Reservation × Property × Review =>
      (x.2.1.id == k.1 && x.1.id == k.2) && x.1.guest_id == guest) ∘
        fun r => (rv, p, r)) = fun _ => true := by
    funext r
    simp [Function.comp, hk1, hk2, hguest]
  rw [hconst, List.filter_true]

/-- C3: the `getAllReservations` query binds the supplied guest id and
limit, and every row it produces comes from a reservation of that guest
joined with its property, carrying the property's average review rating as
`average_rating`. -/
theorem claim3_getAllReservations_rows (db : DB) (guest : Int) (limit : Nat)
    (hp : (db.properties.map fun p => p.id).Nodup)
    (hr : (db.reservations.map fun rv => rv.id).Nodup) :
    (getAllReservationsQuery guest limit).params =
      [JValue.num guest, JValue.num limit] ∧
    ∀ row ∈ evalGetAllReservations db guest limit,
      ∃ rv p, rv ∈ db.reservations ∧ p ∈ db.properties ∧
        rv.guest_id = guest ∧ rv.property_id = p.id ∧
        row = mkResRow rv p (avgRatingFor db p.id) := by
  refine ⟨rfl, ?_⟩
  intro row hrow
  have hrow1 : row ∈ sortByDate
      (((reservationsJoin db).filter (fun t => t.1.guest_id == guest)
        |>.map fun t => (t.2.1.id, t.1.id)).dedup.filterMap fun k =>
          match ((reservationsJoin db).filter
              (fun t => t.1.guest_id == guest)).filter
              (fun t => t.2.1.id == k.1 && t.1.id == k.2) with
          | [] => none
          | t :: rest =>
            some (mkResRow t.1 t.2.1
              (ratingAvg ((t :: rest).map fun x => x.2.2.rating)))) :=
    List.mem_of_mem_take hrow
  rw [mem_sortByDate] at hrow1
  obtain ⟨k, hk, hrowk⟩ := List.mem_filterMap.mp hrow1
  cases hg : ((reservationsJoin db).filter
      (fun t => t.1.guest_id == guest)).filter
      (fun t => t.2.1.id == k.1 && t.1.id == k.2) with
  | nil => rw [hg] at hrowk; exact absurd hrowk (by simp)
  | cons t rest =>
    rw [hg] at hrowk
    have hrowe : row = mkResRow t.1 t.2.1
        (ratingAvg ((t :: rest).map fun x => x.2.2.rating)) := by
      simpa using hrowk.symm
    have htg : t ∈ ((reservationsJoin db).filter
        (fun t => t.1.guest_id == guest)).filter
        (fun t => t.2.1.id == k.1 && t.1.id == k.2) := by
      rw [hg]; exact List.mem_cons_self _ _
    obtain ⟨htf, hpk⟩ := List.mem_filter.mp htg
    obtain ⟨htj, hguest⟩ := List.mem_filter.mp htf
    obtain ⟨hrv_mem, hp_mem, hprop, _, _⟩ := mem_reservationsJoin htj
    have hgrp := resGroup_eq db guest k hp hr t htf hpk
    rw [hg] at hgrp
    have hratings : (t :: rest).map (fun x => x.2.2.rating) =
        (db.property_reviews.filter fun r => t.2.1.id == r.property_id).map
          fun r => r.rating := by
      rw [hgrp, List.map_map]
      rfl
    refine ⟨t.1, t.2.1, hrv_mem, hp_mem, by simpa using hguest, hprop, ?_⟩
    rw [hrowe, hratings]
    rfl

/-- Witness for C3 at a concrete database: the guest's reservation is
returned with the property's average rating. -/
theorem claim3_witness :
    ((resWitnessDB.properties.map fun p => p.id).Nodup ∧
      (resWitnessDB.reservations.map fun rv => rv.id).Nodup) ∧
    ∀ row ∈ evalGetAllReservations resWitnessDB 5 10,
      ∃ rv p, rv ∈ resWitnessDB.reservations ∧ p ∈ resWitnessDB.properties ∧
        rv.guest_id = 5 ∧ rv.property_id = p.id ∧
        row = mkResRow rv p (avgRatingFor resWitnessDB p.id) :=
  ⟨⟨by decide, by decide⟩,
    (claim3_getAllReservations_rows resWitnessDB 5 10 (by decide)
      (by decide)).2⟩

end LightBnB
